import Mathlib

/-!
# Invocation lifecycle client of the AWS Lambda C runtime

Shallow embedding of `src/service-integration.c`.

Conventions of the embedding.

* A C string is the list of its `char`s before the terminating NUL (`CStr`);
  `strlen` is `List.length`.  Lengths of strings held in memory are below
  `2 ^ 64`, so `size_t` sums of such lengths are taken in `Nat`.
* A character array is a `Buf`: its size in bytes and the string it holds.
  `strcpy`, `strcat` and `sprintf` write the string and its NUL; a write that
  would pass the end of the array is undefined behaviour in C and is the
  result `Fault.out_of_bounds` here.  A fault is not a value the C function
  returns: it marks an execution that left the defined behaviour of the
  program.
* `malloc` is taken to succeed (the client assumes allocation never fails in
  normal operation); the `FAIL_IF` checks are kept in the control flow.
* `printf` calls write to standard output only and are left out.
* libcurl and the response sink (`response.c`) are outside the file: the easy
  handle is the record of the options set on it, and the world decides
  whether a handle is available and what a transfer yields.
-/

namespace LambdaRuntime


/-- A C string: the chars before the terminating NUL. -/
abbrev CStr := List Char

/-- Executions that leave the defined behaviour of the program, or end the process. -/
inductive Fault where
  | out_of_bounds
  | null_pointer
  | exit_failure
  deriving DecidableEq, Repr

/-- A character array of `cap` bytes holding the NUL-terminated string `str`. -/
structure Buf where
  cap : Nat
  str : CStr
  deriving DecidableEq, Repr

/-- The call `malloc(n)`: a fresh array of `n` bytes (it is written by `strcpy` or `sprintf`
before it is read).  Allocation is taken to succeed. -/
def malloc (n : Nat) : Option Buf := some ⟨n, []⟩

/-- The check `FAIL_IF(!p)` after an allocation: a NULL result ends the process. -/
def FAIL_IF_NULL {α : Type} (p : Option α) : Except Fault α :=
  match p with
  | some a => .ok a
  | none => .error .exit_failure

/-- Reading through a `char *` that may be NULL. -/
def deref {α : Type} (p : Option α) : Except Fault α :=
  match p with
  | some a => .ok a
  | none => .error .null_pointer

/-- The call `strcpy(dest, src)`: writes `strlen(src) + 1` bytes from the start of `dest`. -/
def strcpy (dest : Buf) (src : CStr) : Except Fault Buf :=
  if src.length + 1 ≤ dest.cap then .ok { dest with str := src }
  else .error .out_of_bounds

/-- The call `strcat(dest, src)`: writes `strlen(src) + 1` bytes from offset `strlen(dest)`. -/
def strcat (dest : Buf) (src : CStr) : Except Fault Buf :=
  if dest.str.length + src.length + 1 ≤ dest.cap then .ok { dest with str := dest.str ++ src }
  else .error .out_of_bounds

/-- The conversion `%lu` of `sprintf`: the decimal digits of `n`. -/
def fmt_lu (n : Nat) : CStr := Nat.toDigits 10 n

/-- The call `sprintf(dest, fmt, ...)` whose formatted output is `out`: writes it and its NUL. -/
def sprintf (dest : Buf) (out : CStr) : Except Fault Buf :=
  if out.length + 1 ≤ dest.cap then .ok { dest with str := out }
  else .error .out_of_bounds

/-- The narrowing conversion `(int) x` of a `long` (32-bit `int`, two's complement). -/
def to_int (x : Int) : Int := (x + 2 ^ 31) % 2 ^ 32 - 2 ^ 31

/-- The conversion `(long) n` of a `size_t` (64-bit `long`, two's complement). -/
def to_long (n : Nat) : Int := ((n : Int) + 2 ^ 63) % 2 ^ 64 - 2 ^ 63

def HTTP_HEADER_CONTENT_TYPE : CStr := "Content-Type: ".toList

def HTTP_HEADER_CONTENT_LENGTH : CStr := "Content-Length: ".toList

/-- The size of the array `static char base_url[256]`. -/
def base_url_size : Nat := 256

/-- The process-wide variables of the file: the string held in `base_url`, and the pointers
`next_endpoint` and `result_endpoint` (NULL before initialisation) with the strings they
point to. -/
structure Globals where
  base_url : CStr
  next_endpoint : Option CStr
  result_endpoint : Option CStr
  deriving DecidableEq, Repr

/-- The state at program start: statics are zero-initialised. -/
def Globals.initial : Globals :=
  { base_url := [], next_endpoint := none, result_endpoint := none }

/-- The function `build_url` (lines 312-323). -/
def build_url (b_url path : CStr) : Except Fault Buf := do
  let dest ← FAIL_IF_NULL (malloc (b_url.length + path.length + 1))
  let dest ← strcpy dest b_url
  let dest ← strcat dest path
  pure dest

/-- The function `service_integration_init` (lines 34-46); `env` is the result of
`getenv("AWS_LAMBDA_RUNTIME_API")`.  The calls `curl_global_init` and
`http_response_init` do not touch the variables of this file. -/
def service_integration_init (env : Option CStr) (g : Globals) : Except Fault Globals := do
  let base_url ← strcpy ⟨base_url_size, g.base_url⟩ "http://".toList
  let base_url ← (match env with
    | some e => strcat base_url e
    | none => pure base_url)
  let next_endpoint ← build_url base_url.str "/2018-06-01/runtime/invocation/next".toList
  let result_endpoint ← build_url base_url.str "/2018-06-01/runtime/invocation/".toList
  pure { base_url := base_url.str,
         next_endpoint := some next_endpoint.str,
         result_endpoint := some result_endpoint.str }

/-! ## The HTTP client library and the response sink -/

/-- The callbacks of the response sink that the file installs on the handle. -/
inductive Callback where
  | write_data_callback
  | write_header_callback
  | read_data_callback
  deriving DecidableEq, Repr

/-- The struct `curl_request_write_t`: the cursor of the streaming body reader. -/
structure curl_request_write_t where
  readptr : CStr
  sizeleft : Nat
  deriving DecidableEq, Repr

def CURL_HTTP_VERSION_1_1 : Nat := 2

def CURLE_OK : Nat := 0

/-- An easy handle, as the options set on it; `none` is an option left at the default of
the library (for `httpheader`: no custom request header list). -/
structure Curl where
  timeout : Option Int
  connecttimeout : Option Int
  nosignal : Option Int
  tcp_nodelay : Option Int
  http_version : Option Nat
  httpget : Option Int
  post : Option Int
  url : Option CStr
  writefunction : Option Callback
  headerfunction : Option Callback
  readfunction : Option Callback
  readdata : Option curl_request_write_t
  postfieldsize : Option Int
  httpheader : Option (List CStr)
  deriving DecidableEq, Repr

/-- The call `curl_easy_reset`, and the state of a handle fresh from `curl_easy_init`:
every option at its default. -/
def curl_easy_reset : Curl :=
  { timeout := none, connecttimeout := none, nosignal := none, tcp_nodelay := none,
    http_version := none, httpget := none, post := none, url := none,
    writefunction := none, headerfunction := none, readfunction := none,
    readdata := none, postfieldsize := none, httpheader := none }

/-- The call `curl_slist_append(list, s)`. -/
def curl_slist_append (list : List CStr) (s : CStr) : List CStr := list ++ [s]

/-- The header store of the response sink after a transfer: name and value pairs. -/
abbrev HeaderStore := List (CStr × CStr)

/-- Modelled from the spec: `has_header` of `response.c`, which is outside this file;
an existence check by case-sensitive exact match on the name. -/
def has_header (h : HeaderStore) (name : CStr) : Bool := h.any (fun p => p.1 == name)

/-- Modelled from the spec: `get_header` of `response.c`, which is outside this file;
the value stored for the name, NULL (the absent marker) when there is none. -/
def get_header (h : HeaderStore) (name : CStr) : Option CStr := h.lookup name

/-- Modelled from the spec: the macro `SAFE_STRDUP(dest, src)` of `utils.h`, which is outside
this file, for a non-NULL `src`; the value assigned to `dest` is a fresh copy of
`src`, and a failed allocation is fatal. -/
def SAFE_STRDUP (src : CStr) : Except Fault CStr := do
  let d ← FAIL_IF_NULL (malloc (src.length + 1))
  let d ← strcpy d src
  pure d.str

/-- What `curl_easy_perform` leaves behind: its `CURLcode`, the response code that
`curl_easy_getinfo` then reports (a `long`), and the state of the response sink, which was
cleared by `http_response_clear` before the transfer: `http_response_get_content()` and the
header store. -/
structure Transfer where
  code : Nat
  response_code : Int
  content : CStr
  headers : HeaderStore
  deriving DecidableEq, Repr

/-- Everything the file takes from outside: the user agent string provider, the header name
constants of `service-integration.h`, whether `curl_easy_init` yields a handle, and the
outcome of `curl_easy_perform` on a configured handle. -/
structure World where
  get_user_agent_header : CStr
  REQUEST_ID_HEADER : CStr
  TRACE_ID_HEADER : CStr
  CLIENT_CONTEXT_HEADER : CStr
  COGNITO_IDENTITY_HEADER : CStr
  FUNCTION_ARN_HEADER : CStr
  curl_easy_init : Bool
  curl_easy_perform : Curl → Transfer

/-! ## Data model of the client -/

structure invocation_request where
  payload : Option CStr
  request_id : Option CStr
  xray_trace_id : Option CStr
  client_context : Option CStr
  cognito_identity : Option CStr
  function_arn : Option CStr
  deriving DecidableEq, Repr

structure invocation_response where
  payload : CStr
  content_type : CStr
  success : Bool
  deriving DecidableEq, Repr

structure next_outcome where
  success : Bool
  res_code : Int
  request : Option invocation_request
  deriving DecidableEq, Repr

structure post_result_outcome where
  success : Bool
  res_code : Int
  deriving DecidableEq, Repr

/-! ## The operations -/

/-- The function `set_default_curl_options` (lines 55-66). -/
def set_default_curl_options (_curl : Curl) : Curl :=
  { curl_easy_reset with
    timeout := some 0, connecttimeout := some 1, nosignal := some 1,
    tcp_nodelay := some 1, http_version := some CURL_HTTP_VERSION_1_1 }

/-- The function `set_curl_next_options` (lines 68-74). -/
def set_curl_next_options (g : Globals) (curl : Curl) : Curl :=
  { set_default_curl_options curl with
    httpget := some 1, url := g.next_endpoint,
    writefunction := some .write_data_callback,
    headerfunction := some .write_header_callback }

/-- The function `set_curl_post_result_options` (lines 76-82). -/
def set_curl_post_result_options (curl : Curl) : Curl :=
  { set_default_curl_options curl with
    post := some 1, readfunction := some .read_data_callback,
    writefunction := some .write_data_callback,
    headerfunction := some .write_header_callback }

/-- The handle on which `request_get_next` calls `curl_easy_perform` (lines 92-98). -/
def next_handle (g : Globals) : Curl := set_curl_next_options g curl_easy_reset

/-- One of the five blocks of lines 135-168: `if (has_header(NAME)) SAFE_STRDUP(field,
get_header(NAME))`, on a field that was set to NULL. -/
def header_field (h : HeaderStore) (name : CStr) : Except Fault (Option CStr) :=
  if has_header h name then do
    let v ← deref (get_header h name)
    let d ← SAFE_STRDUP v
    pure (some d)
  else pure none

/-- The `malloc(sizeof(invocation_request))` of line 109 followed by the six assignments of
NULL (lines 113-123). -/
def malloc_invocation_request : Option invocation_request :=
  some { payload := none, request_id := none, xray_trace_id := none,
         client_context := none, cognito_identity := none, function_arn := none }

/-- The function `request_get_next` (lines 84-189).  The list `headers` of lines 95-96 is
built and freed (line 99) and is passed to no call in between. -/
def request_get_next (w : World) (g : Globals) : Except Fault next_outcome :=
  let ret : next_outcome := { success := false, res_code := -1, request := none }
  if w.curl_easy_init then
    let curl := set_curl_next_options g curl_easy_reset
    let _headers := curl_slist_append [] w.get_user_agent_header
    let t := w.curl_easy_perform curl
    if t.code ≠ CURLE_OK then .ok ret
    else do
      let ret := { ret with success := true }
      let request ← FAIL_IF_NULL malloc_invocation_request
      let ret := { ret with res_code := to_int t.response_code }
      let payload ← SAFE_STRDUP t.content
      let request_id ← header_field t.headers w.REQUEST_ID_HEADER
      let xray_trace_id ← header_field t.headers w.TRACE_ID_HEADER
      let client_context ← header_field t.headers w.CLIENT_CONTEXT_HEADER
      let cognito_identity ← header_field t.headers w.COGNITO_IDENTITY_HEADER
      let function_arn ← header_field t.headers w.FUNCTION_ARN_HEADER
      pure { ret with
             request := some { request with
               payload := some payload, request_id := request_id,
               xray_trace_id := xray_trace_id, client_context := client_context,
               cognito_identity := cognito_identity, function_arn := function_arn } }
  else .ok ret

/-- Lines 207-215 of `request_post_result`: the array for the submission URL and the three
writes into it. -/
def build_request_url (g : Globals) (request : invocation_request)
    (response : invocation_response) : Except Fault Buf := do
  let result_endpoint ← deref g.result_endpoint
  let request_url ← FAIL_IF_NULL (malloc (result_endpoint.length + 128))
  let request_url ← strcpy request_url result_endpoint
  let request_id ← deref request.request_id
  let request_url ← strcat request_url request_id
  let request_url ← strcat request_url
    (if response.success then "/response".toList else "/error".toList)
  pure request_url

/-- Lines 219-271 of `request_post_result`: the options and request headers set on the
handle before the transfer. -/
def post_result_options (w : World) (response : invocation_response) (request_url : Buf)
    (curl : Curl) : Except Fault Curl := do
  let curl := set_curl_post_result_options curl
  let curl := { curl with url := some request_url.str }
  let headers : List CStr := []
  let content_type_h ← FAIL_IF_NULL
    (malloc (HTTP_HEADER_CONTENT_TYPE.length + response.content_type.length + 1))
  let content_type_h ← strcpy content_type_h HTTP_HEADER_CONTENT_TYPE
  let content_type_h ← strcat content_type_h response.content_type
  let headers := curl_slist_append headers content_type_h.str
  let headers := curl_slist_append headers w.get_user_agent_header
  let content_length_v ← FAIL_IF_NULL (malloc 16)
  let content_length_v ← sprintf content_length_v (fmt_lu response.payload.length)
  let content_length_h ← FAIL_IF_NULL
    (malloc (HTTP_HEADER_CONTENT_LENGTH.length + content_length_v.str.length + 1))
  let content_length_h ← sprintf content_length_h
    (HTTP_HEADER_CONTENT_LENGTH ++ content_length_v.str)
  let headers := curl_slist_append headers content_length_h.str
  let req_write : curl_request_write_t :=
    { readptr := response.payload, sizeleft := response.payload.length }
  let curl := { curl with readdata := some req_write }
  let curl := { curl with postfieldsize := some (to_long req_write.sizeleft) }
  let curl := { curl with httpheader := some headers }
  pure curl

/-- The handle on which `request_post_result` calls `curl_easy_perform` (lines 207-271). -/
def post_result_handle (w : World) (g : Globals) (request : invocation_request)
    (response : invocation_response) : Except Fault Curl := do
  let request_url ← build_request_url g request response
  post_result_options w response request_url curl_easy_reset

/-- The function `request_post_result` (lines 191-309). -/
def request_post_result (w : World) (g : Globals) (request : invocation_request)
    (response : invocation_response) : Except Fault post_result_outcome :=
  let ret : post_result_outcome := { success := false, res_code := -1 }
  if w.curl_easy_init then do
    let request_url ← build_request_url g request response
    let curl ← post_result_options w response request_url curl_easy_reset
    let t := w.curl_easy_perform curl
    if t.code ≠ CURLE_OK then pure ret
    else
      let http_response_code := t.response_code
      let ret := { ret with res_code := to_int http_response_code }
      let ret := { ret with
        success := decide (http_response_code ≥ 200 ∧ http_response_code ≤ 299) }
      pure ret
  else .ok ret

/-! ## Values used to describe the operations -/

/-- The globals that `service_integration_init` leaves when no write faults. -/
def init_result (env : Option CStr) : Globals :=
  { base_url := "http://".toList ++ env.getD [],
    next_endpoint :=
      some ("http://".toList ++ env.getD [] ++ "/2018-06-01/runtime/invocation/next".toList),
    result_endpoint :=
      some ("http://".toList ++ env.getD [] ++ "/2018-06-01/runtime/invocation/".toList) }

/-- The outcome with the sentinel values of lines 87-89. -/
def next_not_made : next_outcome := { success := false, res_code := -1, request := none }

/-- The outcome with the sentinel values of lines 195-197. -/
def post_not_made : post_result_outcome := { success := false, res_code := -1 }

/-- The outcome that `request_get_next` builds from a transfer that ended with `CURLE_OK`. -/
def next_fulfilled (w : World) (t : Transfer) : next_outcome :=
  { success := true,
    res_code := to_int t.response_code,
    request := some
      { payload := some t.content,
        request_id := get_header t.headers w.REQUEST_ID_HEADER,
        xray_trace_id := get_header t.headers w.TRACE_ID_HEADER,
        client_context := get_header t.headers w.CLIENT_CONTEXT_HEADER,
        cognito_identity := get_header t.headers w.COGNITO_IDENTITY_HEADER,
        function_arn := get_header t.headers w.FUNCTION_ARN_HEADER } }

/-- The last URL segment that `request_post_result` appends (line 215). -/
def url_suffix (response : invocation_response) : CStr :=
  if response.success then "/response".toList else "/error".toList

/-- The handle that lines 219-271 configure for the submission URL `url`. -/
def post_handle_value (w : World) (response : invocation_response) (url : CStr) : Curl :=
  { set_curl_post_result_options curl_easy_reset with
    url := some url,
    readdata := some { readptr := response.payload, sizeleft := response.payload.length },
    postfieldsize := some (to_long response.payload.length),
    httpheader := some
      [HTTP_HEADER_CONTENT_TYPE ++ response.content_type,
       w.get_user_agent_header,
       HTTP_HEADER_CONTENT_LENGTH ++ fmt_lu response.payload.length] }

/-- The outcome that `request_post_result` builds from a transfer (lines 278-293). -/
def post_outcome_of (t : Transfer) : post_result_outcome :=
  if t.code = CURLE_OK then
    { success := decide (t.response_code ≥ 200 ∧ t.response_code ≤ 299),
      res_code := to_int t.response_code }
  else post_not_made

/-! ## Example inputs -/

/-- A world for the examples: fixed user agent and header names, and the given answers of
the HTTP client library. -/
def example_world (handle : Bool) (perform : Curl → Transfer) : World :=
  { get_user_agent_header := "User-Agent: AWS_Lambda_C/0.1".toList,
    REQUEST_ID_HEADER := "Lambda-Runtime-Aws-Request-Id".toList,
    TRACE_ID_HEADER := "Lambda-Runtime-Trace-Id".toList,
    CLIENT_CONTEXT_HEADER := "Lambda-Runtime-Client-Context".toList,
    COGNITO_IDENTITY_HEADER := "Lambda-Runtime-Cognito-Identity".toList,
    FUNCTION_ARN_HEADER := "Lambda-Runtime-Invoked-Function-Arn".toList,
    curl_easy_init := handle,
    curl_easy_perform := perform }

/-- The globals after initialisation with `AWS_LAMBDA_RUNTIME_API=127.0.0.1:9001`. -/
def example_globals : Globals :=
  { base_url := "http://127.0.0.1:9001".toList,
    next_endpoint := some "http://127.0.0.1:9001/2018-06-01/runtime/invocation/next".toList,
    result_endpoint := some "http://127.0.0.1:9001/2018-06-01/runtime/invocation/".toList }

/-- A transfer that ends with `CURLE_OK`, the given status, an empty body and no headers. -/
def status_only (status : Int) : Transfer :=
  { code := CURLE_OK, response_code := status, content := [], headers := [] }

/-- A transfer that fails before any response: `CURLE_COULDNT_CONNECT`. -/
def connect_failed : Transfer :=
  { code := 7, response_code := 0, content := [], headers := [] }

/-- The response of the example: status 200, body `hello`, a request id and a trace id. -/
def hello_transfer : Transfer :=
  { code := CURLE_OK, response_code := 200, content := "hello".toList,
    headers := [("Lambda-Runtime-Aws-Request-Id".toList, "abc-123".toList),
                ("Lambda-Runtime-Trace-Id".toList, "t1".toList)] }

/-- A request that carries only a request id. -/
def request_with_id (r : CStr) : invocation_request :=
  { payload := none, request_id := some r, xray_trace_id := none, client_context := none,
    cognito_identity := none, function_arn := none }

/-- A JSON response of the handler. -/
def example_response (success : Bool) : invocation_response :=
  { payload := "ok".toList, content_type := "application/json".toList, success := success }

/-- A server that answers 200 when the request carries exactly the user agent header as its
custom header list, and 400 otherwise. -/
def header_probe (user_agent : CStr) (curl : Curl) : Transfer :=
  if curl.httpheader = some [user_agent] then status_only 200 else status_only 400

/-- A server that answers 200 when the request targets exactly the given URL, and 404
otherwise. -/
def url_probe (url : CStr) (curl : Curl) : Transfer :=
  if curl.url = some url then status_only 200 else status_only 404

/-! ## Basic facts about the string primitives -/

theorem strcpy_ok (dest : Buf) (src : CStr) (h : src.length + 1 ≤ dest.cap) :
    strcpy dest src = .ok ⟨dest.cap, src⟩ := by
  simp [strcpy, h]

theorem strcpy_fault (dest : Buf) (src : CStr) (h : dest.cap < src.length + 1) :
    strcpy dest src = .error .out_of_bounds := by
  simp [strcpy, Nat.not_le.mpr h]

theorem strcat_ok (dest : Buf) (src : CStr) (h : dest.str.length + src.length + 1 ≤ dest.cap) :
    strcat dest src = .ok ⟨dest.cap, dest.str ++ src⟩ := by
  simp [strcat, h]

theorem strcat_fault (dest : Buf) (src : CStr)
    (h : dest.cap < dest.str.length + src.length + 1) :
    strcat dest src = .error .out_of_bounds := by
  simp [strcat, Nat.not_le.mpr h]

theorem sprintf_ok (dest : Buf) (out : CStr) (h : out.length + 1 ≤ dest.cap) :
    sprintf dest out = .ok ⟨dest.cap, out⟩ := by
  simp [sprintf, h]

theorem sprintf_fault (dest : Buf) (out : CStr) (h : dest.cap < out.length + 1) :
    sprintf dest out = .error .out_of_bounds := by
  simp [sprintf, Nat.not_le.mpr h]

/-- The array that `build_url` allocates is exactly as long as the two strings and the NUL,
so both writes stay inside it. -/
theorem build_url_eq (b_url path : CStr) :
    build_url b_url path = .ok ⟨b_url.length + path.length + 1, b_url ++ path⟩ := by
  have h1 : strcpy ⟨b_url.length + path.length + 1, []⟩ b_url
      = .ok ⟨b_url.length + path.length + 1, b_url⟩ :=
    strcpy_ok _ _ (by simp only []; omega)
  have h2 : strcat ⟨b_url.length + path.length + 1, b_url⟩ path
      = .ok ⟨b_url.length + path.length + 1, b_url ++ path⟩ :=
    strcat_ok _ _ (by simp only []; omega)
  simp only [build_url, malloc, FAIL_IF_NULL, bind, Except.bind, h1, h2, pure, Except.pure]

/-- A full description of `service_integration_init`: the write of the environment value
into `base_url` stays inside the array exactly when the value has at most 248 bytes. -/
theorem service_integration_init_eq (env : Option CStr) (g : Globals) :
    service_integration_init env g =
      if (env.getD []).length ≤ 248 then .ok (init_result env) else .error .out_of_bounds := by
  have h0 : strcpy ⟨base_url_size, g.base_url⟩ "http://".toList
      = .ok ⟨base_url_size, "http://".toList⟩ :=
    strcpy_ok _ _ (by show ("http://".toList).length + 1 ≤ base_url_size; decide)
  cases env with
  | none =>
    simp only [service_integration_init, h0, bind, Except.bind, pure, Except.pure,
      build_url_eq, Option.getD, init_result, List.length_nil, Nat.zero_le,
      if_true, List.append_nil]
  | some e =>
    by_cases h : e.length ≤ 248
    · have h1 : strcat ⟨base_url_size, "http://".toList⟩ e
          = .ok ⟨base_url_size, "http://".toList ++ e⟩ :=
        strcat_ok _ _ (by
          have : ("http://".toList).length = 7 := by decide
          simp only [this, base_url_size]; omega)
      simp only [service_integration_init, h0, h1, bind, Except.bind, pure, Except.pure,
        build_url_eq, Option.getD, init_result, h, if_true]
    · have h1 : strcat ⟨base_url_size, "http://".toList⟩ e = .error .out_of_bounds :=
        strcat_fault _ _ (by
          have : ("http://".toList).length = 7 := by decide
          simp only [this, base_url_size]; omega)
      simp only [service_integration_init, h0, h1, bind, Except.bind, Option.getD,
        h, if_false]

/-! ## The header store and the copies made from it -/

/-- A name is in the store exactly when a value is stored for it. -/
theorem has_header_eq_isSome (h : HeaderStore) (name : CStr) :
    has_header h name = (get_header h name).isSome := by
  induction h with
  | nil => rfl
  | cons p t ih =>
    obtain ⟨k, v⟩ := p
    by_cases hk : name = k
    · subst hk
      simp [has_header, get_header, List.lookup]
    · have hk2 : (name == k) = false := by simpa using hk
      have hk3 : (k == name) = false := by simpa using fun e : k = name => hk e.symm
      simp only [has_header, get_header] at ih
      simp only [has_header, get_header, List.any_cons, List.lookup, hk2, hk3, Bool.false_or, ih]

theorem SAFE_STRDUP_eq (src : CStr) : SAFE_STRDUP src = .ok src := by
  have h1 : strcpy ⟨src.length + 1, []⟩ src = .ok ⟨src.length + 1, src⟩ :=
    strcpy_ok _ _ (Nat.le_refl _)
  simp only [SAFE_STRDUP, malloc, FAIL_IF_NULL, bind, Except.bind, h1, pure, Except.pure]

/-- Each metadata field ends as the value stored for its header name, NULL when there is
none. -/
theorem header_field_eq (h : HeaderStore) (name : CStr) :
    header_field h name = .ok (get_header h name) := by
  unfold header_field
  rw [has_header_eq_isSome]
  cases hg : get_header h name with
  | none => simp [pure, Except.pure]
  | some v => simp [deref, SAFE_STRDUP_eq, bind, Except.bind, pure, Except.pure]

/-! ## The integer conversions -/

theorem to_int_eq (x : Int) (h1 : -2147483648 ≤ x) (h2 : x ≤ 2147483647) : to_int x = x := by
  unfold to_int
  rw [Int.emod_eq_of_lt] <;> omega

theorem to_long_eq (n : Nat) (h : n < 2 ^ 63) : to_long n = (n : Int) := by
  unfold to_long
  have h2 : ((n : Nat) : Int) < 2 ^ 63 := by exact_mod_cast h
  rw [Int.emod_eq_of_lt] <;> omega

/-! ## The decimal conversion -/

theorem toDigitsCore_length_ge (fuel : Nat) :
    ∀ (n k : Nat) (ds : List Char), n < fuel → 10 ^ k ≤ n →
      ds.length + k + 1 ≤ (Nat.toDigitsCore 10 fuel n ds).length := by
  induction fuel with
  | zero => intro n k ds h; omega
  | succ f ih =>
    intro n k ds hn hk
    simp only [Nat.toDigitsCore]
    by_cases h0 : n / 10 = 0
    · have hlt : n < 10 := by omega
      have hk0 : k = 0 := by
        cases k with
        | zero => rfl
        | succ j =>
          have : 10 ^ 1 ≤ 10 ^ (j + 1) := Nat.pow_le_pow_right (by decide) (by omega)
          omega
      subst hk0
      simp [h0]
    · simp only [h0, if_false]
      cases k with
      | zero =>
        have := ih (n / 10) 0 (Nat.digitChar (n % 10) :: ds) (by omega) (by simp; omega)
        simp only [List.length_cons] at this
        omega
      | succ j =>
        have hj : 10 ^ j ≤ n / 10 := by
          rw [Nat.le_div_iff_mul_le (by decide)]
          rw [Nat.pow_succ] at hk
          exact hk
        have := ih (n / 10) j (Nat.digitChar (n % 10) :: ds) (by omega) hj
        simp only [List.length_cons] at this
        omega

/-- A number of at least `10 ^ k` has more than `k` decimal digits. -/
theorem fmt_lu_length_gt (n k : Nat) (h : 10 ^ k ≤ n) : k < (fmt_lu n).length := by
  have := toDigitsCore_length_ge (n + 1) n k [] (by omega) h
  simp only [List.length_nil] at this
  unfold fmt_lu Nat.toDigits
  omega

/-- A number below `10 ^ e` has at most `e` decimal digits. -/
theorem fmt_lu_length_le (n e : Nat) (he : 0 < e) (h : n < 10 ^ e) : (fmt_lu n).length ≤ e := by
  unfold fmt_lu Nat.toDigits
  exact Nat.toDigitsCore_length 10 (by decide) (n + 1) n e h he

/-- The digits of the payload length fit the 16-byte array exactly when the length is below
`10 ^ 15`. -/
theorem fmt_lu_fits_iff (n : Nat) : (fmt_lu n).length + 1 ≤ 16 ↔ n < 10 ^ 15 := by
  constructor
  · intro h
    by_contra hn
    have := fmt_lu_length_gt n 15 (by omega)
    omega
  · intro h
    have := fmt_lu_length_le n 15 (by decide) h
    omega

/-! ## Full descriptions of the two operations -/

/-- The function `request_get_next` always returns: the built outcome after a transfer that
ended with `CURLE_OK`, the sentinel outcome otherwise. -/
theorem request_get_next_eq (w : World) (g : Globals) :
    request_get_next w g = .ok
      (if w.curl_easy_init = true ∧ (w.curl_easy_perform (next_handle g)).code = CURLE_OK
       then next_fulfilled w (w.curl_easy_perform (next_handle g)) else next_not_made) := by
  unfold request_get_next
  by_cases hi : w.curl_easy_init = true
  · by_cases hc : (w.curl_easy_perform (next_handle g)).code = CURLE_OK
    · have hc2 : (w.curl_easy_perform (set_curl_next_options g curl_easy_reset)).code
          = CURLE_OK := hc
      simp only [hi, hc, hc2, if_true, ne_eq, not_true_eq_false, if_false, and_self,
        malloc_invocation_request, FAIL_IF_NULL, SAFE_STRDUP_eq, header_field_eq, bind,
        Except.bind, pure, Except.pure, next_fulfilled, next_handle]
    · have hc2 : ¬ (w.curl_easy_perform (set_curl_next_options g curl_easy_reset)).code
          = CURLE_OK := hc
      simp only [hi, hc, hc2, if_true, ne_eq, not_false_eq_true, and_false, if_false,
        next_not_made]
  · have hi2 : w.curl_easy_init = false := by simpa using hi
    simp [hi2, next_not_made]

/-- A full description of lines 207-215: the three writes stay inside the array of
`strlen(result_endpoint) + 128` bytes exactly when the request id, the last segment and the
NUL take at most 128 bytes. -/
theorem build_request_url_eq (g : Globals) (request : invocation_request)
    (response : invocation_response) (P r : CStr)
    (hP : g.result_endpoint = some P) (hr : request.request_id = some r) :
    build_request_url g request response =
      if r.length + (url_suffix response).length + 1 ≤ 128
      then .ok ⟨P.length + 128, P ++ r ++ url_suffix response⟩
      else .error .out_of_bounds := by
  have h1 : strcpy ⟨P.length + 128, []⟩ P = .ok ⟨P.length + 128, P⟩ :=
    strcpy_ok _ _ (by simp only []; omega)
  have hsuf : (if response.success = true then "/response".toList else "/error".toList)
      = url_suffix response := rfl
  have hlen : 1 ≤ (url_suffix response).length := by
    unfold url_suffix
    cases response.success <;> decide
  simp only [build_request_url, hP, hr, deref, malloc, FAIL_IF_NULL, bind, Except.bind, h1,
    hsuf, pure, Except.pure]
  by_cases hfit : r.length + (url_suffix response).length + 1 ≤ 128
  · have h2 : strcat ⟨P.length + 128, P⟩ r = .ok ⟨P.length + 128, P ++ r⟩ :=
      strcat_ok _ _ (by simp only []; omega)
    have h3 : strcat ⟨P.length + 128, P ++ r⟩ (url_suffix response)
        = .ok ⟨P.length + 128, P ++ r ++ url_suffix response⟩ :=
      strcat_ok _ _ (by simp only [List.length_append]; omega)
    simp only [h2, h3, hfit, if_true]
  · by_cases hr2 : P.length + r.length + 1 ≤ P.length + 128
    · have h2 : strcat ⟨P.length + 128, P⟩ r = .ok ⟨P.length + 128, P ++ r⟩ :=
        strcat_ok _ _ hr2
      have h3 : strcat ⟨P.length + 128, P ++ r⟩ (url_suffix response)
          = .error .out_of_bounds :=
        strcat_fault _ _ (by simp only [List.length_append]; omega)
      simp only [h2, h3, hfit, if_false]
    · have h2 : strcat ⟨P.length + 128, P⟩ r = .error .out_of_bounds :=
        strcat_fault _ _ (by simp only []; omega)
      simp only [h2, hfit, if_false]

/-- A full description of lines 219-271: the only write that can leave its array is the
`sprintf` of the payload length into the 16-byte `content_length_v`. -/
theorem post_result_options_eq (w : World) (response : invocation_response)
    (request_url : Buf) (curl : Curl) :
    post_result_options w response request_url curl =
      if (fmt_lu response.payload.length).length + 1 ≤ 16
      then .ok (post_handle_value w response request_url.str)
      else .error .out_of_bounds := by
  have h1 : strcpy
      ⟨HTTP_HEADER_CONTENT_TYPE.length + response.content_type.length + 1, []⟩
      HTTP_HEADER_CONTENT_TYPE
      = .ok ⟨HTTP_HEADER_CONTENT_TYPE.length + response.content_type.length + 1,
          HTTP_HEADER_CONTENT_TYPE⟩ :=
    strcpy_ok _ _ (by simp only []; omega)
  have h2 : strcat
      ⟨HTTP_HEADER_CONTENT_TYPE.length + response.content_type.length + 1,
        HTTP_HEADER_CONTENT_TYPE⟩ response.content_type
      = .ok ⟨HTTP_HEADER_CONTENT_TYPE.length + response.content_type.length + 1,
          HTTP_HEADER_CONTENT_TYPE ++ response.content_type⟩ :=
    strcat_ok _ _ (Nat.le_refl _)
  by_cases hfit : (fmt_lu response.payload.length).length + 1 ≤ 16
  · have h3 : sprintf ⟨16, []⟩ (fmt_lu response.payload.length)
        = .ok ⟨16, fmt_lu response.payload.length⟩ := sprintf_ok _ _ hfit
    have h4 : sprintf
        ⟨HTTP_HEADER_CONTENT_LENGTH.length + (fmt_lu response.payload.length).length + 1, []⟩
        (HTTP_HEADER_CONTENT_LENGTH ++ fmt_lu response.payload.length)
        = .ok ⟨HTTP_HEADER_CONTENT_LENGTH.length + (fmt_lu response.payload.length).length + 1,
            HTTP_HEADER_CONTENT_LENGTH ++ fmt_lu response.payload.length⟩ :=
      sprintf_ok _ _ (by simp only [List.length_append]; omega)
    simp only [post_result_options, malloc, FAIL_IF_NULL, bind, Except.bind, h1, h2, h3, h4,
      pure, Except.pure, hfit, if_true, curl_slist_append, List.nil_append, List.cons_append,
      post_handle_value, set_curl_post_result_options, set_default_curl_options]
  · have h3 : sprintf ⟨16, []⟩ (fmt_lu response.payload.length) = .error .out_of_bounds :=
      sprintf_fault _ _ (by simp only []; omega)
    simp only [post_result_options, malloc, FAIL_IF_NULL, bind, Except.bind, h1, h2, h3,
      hfit, if_false]

/-- The handle of the transfer exists exactly when the URL and the payload length fit their
arrays, and is then the handle of `post_handle_value` for the concatenated URL. -/
theorem post_result_handle_eq (w : World) (g : Globals) (request : invocation_request)
    (response : invocation_response) (P r : CStr)
    (hP : g.result_endpoint = some P) (hr : request.request_id = some r) :
    post_result_handle w g request response =
      if r.length + (url_suffix response).length + 1 ≤ 128 ∧ response.payload.length < 10 ^ 15
      then .ok (post_handle_value w response (P ++ r ++ url_suffix response))
      else .error .out_of_bounds := by
  unfold post_result_handle
  rw [build_request_url_eq g request response P r hP hr]
  by_cases hfit : r.length + (url_suffix response).length + 1 ≤ 128
  · by_cases hn : response.payload.length < 10 ^ 15
    · have hd := (fmt_lu_fits_iff response.payload.length).mpr hn
      simp only [hfit, hn, if_true, and_self, bind, Except.bind, post_result_options_eq, hd]
    · have hd : ¬ (fmt_lu response.payload.length).length + 1 ≤ 16 :=
        fun h => hn ((fmt_lu_fits_iff _).mp h)
      simp only [hfit, hn, if_true, and_false, if_false, bind, Except.bind,
        post_result_options_eq, hd]
  · simp only [hfit, false_and, if_false, bind, Except.bind]

/-- The function `request_post_result` in terms of the handle of its transfer. -/
theorem request_post_result_eq (w : World) (g : Globals) (request : invocation_request)
    (response : invocation_response) :
    request_post_result w g request response =
      if w.curl_easy_init = true then
        (post_result_handle w g request response).map
          (fun curl => post_outcome_of (w.curl_easy_perform curl))
      else .ok post_not_made := by
  unfold request_post_result post_result_handle
  by_cases hi : w.curl_easy_init = true
  · simp only [hi, if_true]
    cases hb : build_request_url g request response with
    | error e => simp only [bind, Except.bind, Except.map]
    | ok url =>
      cases ho : post_result_options w response url curl_easy_reset with
      | error e => simp only [bind, Except.bind, Except.map, ho]
      | ok curl =>
        by_cases hc : (w.curl_easy_perform curl).code = CURLE_OK
        · simp [bind, Except.bind, Except.map, ho, post_outcome_of, hc, pure, Except.pure]
        · simp [bind, Except.bind, Except.map, ho, post_outcome_of, hc, pure, Except.pure,
            post_not_made]
  · have hi2 : w.curl_easy_init = false := by simpa using hi
    simp [hi2, post_not_made]

/-- Every handle that lines 207-271 produce is the handle of `post_handle_value` for some
URL, and the payload is then shorter than `10 ^ 15` bytes. -/
theorem post_result_handle_ok (w : World) (g : Globals) (request : invocation_request)
    (response : invocation_response) (curl : Curl)
    (h : post_result_handle w g request response = .ok curl) :
    (∃ url, curl = post_handle_value w response url) ∧ response.payload.length < 10 ^ 15 := by
  unfold post_result_handle at h
  cases hb : build_request_url g request response with
  | error e =>
    rw [hb] at h
    cases h
  | ok url =>
    rw [hb] at h
    simp only [bind, Except.bind, post_result_options_eq] at h
    by_cases hfit : (fmt_lu response.payload.length).length + 1 ≤ 16
    · rw [if_pos hfit] at h
      injection h with h
      exact ⟨⟨url.str, h.symm⟩, (fmt_lu_fits_iff _).mp hfit⟩
    · rw [if_neg hfit] at h
      cases h

/-! ## The claims -/

/-- C1: for every response that the transport delivers without a transport error, with
status code `s` (a value of C `int`), body `b` and header store `H`, `request_get_next`
returns `success = true`, `res_code = s` and a request whose payload is `b` and whose five
metadata fields are the values that `H` holds for the corresponding header names, absent
when `H` has no such header; a value is held exactly when `has_header` says so. -/
theorem request_get_next_fulfilled (w : World) (g : Globals) (s : Int) (b : CStr)
    (H : HeaderStore) (hinit : w.curl_easy_init = true)
    (ht : w.curl_easy_perform (next_handle g)
      = { code := CURLE_OK, response_code := s, content := b, headers := H })
    (hlo : -2147483648 ≤ s) (hhi : s ≤ 2147483647) :
    request_get_next w g = .ok
      { success := true, res_code := s,
        request := some
          { payload := some b,
            request_id := get_header H w.REQUEST_ID_HEADER,
            xray_trace_id := get_header H w.TRACE_ID_HEADER,
            client_context := get_header H w.CLIENT_CONTEXT_HEADER,
            cognito_identity := get_header H w.COGNITO_IDENTITY_HEADER,
            function_arn := get_header H w.FUNCTION_ARN_HEADER } }
    ∧ ∀ name, (get_header H name).isSome = has_header H name := by
  refine ⟨?_, fun name => (has_header_eq_isSome H name).symm⟩
  rw [request_get_next_eq, ht]
  simp only [hinit, and_self, if_true, next_fulfilled, to_int_eq s hlo hhi]

/-- Witness of C1: status 200, headers request-id `abc-123` and trace-id `t1`, body
`hello`. -/
theorem request_get_next_fulfilled_witness :
    request_get_next (example_world true (fun _ => hello_transfer)) example_globals = .ok
      { success := true, res_code := 200,
        request := some
          { payload := some "hello".toList,
            request_id := some "abc-123".toList,
            xray_trace_id := some "t1".toList,
            client_context := none, cognito_identity := none, function_arn := none } } :=
  (request_get_next_fulfilled (example_world true (fun _ => hello_transfer)) example_globals
    200 "hello".toList hello_transfer.headers rfl rfl (by decide) (by decide)).1

/-- C2 fails: a server that answers 200 exactly to the URL `P ++ r ++ "/error"` answers so
to `request_post_result` for a request id of 121 bytes; for a request id of 122 bytes the
writes of lines 211-215 pass the end of the URL array and no transfer to that URL takes
place. -/
theorem request_post_result_url_lost :
    request_post_result
        (example_world true (url_probe
          ("http://127.0.0.1:9001/2018-06-01/runtime/invocation/".toList
            ++ List.replicate 121 'a' ++ "/error".toList)))
        example_globals (request_with_id (List.replicate 121 'a')) (example_response false)
      = .ok { success := true, res_code := 200 }
    ∧ request_post_result
        (example_world true (url_probe
          ("http://127.0.0.1:9001/2018-06-01/runtime/invocation/".toList
            ++ List.replicate 122 'a' ++ "/error".toList)))
        example_globals (request_with_id (List.replicate 122 'a')) (example_response false)
      = .error .out_of_bounds := by
  have h121 : (List.replicate 121 'a').length + (url_suffix (example_response false)).length + 1
      = 128 := by
    rw [List.length_replicate]
    rfl
  have h122 : (List.replicate 122 'a').length + (url_suffix (example_response false)).length + 1
      = 129 := by
    rw [List.length_replicate]
    rfl
  constructor
  · have hc : 128 ≤ 128 ∧ (example_response false).payload.length < 10 ^ 15 :=
      ⟨Nat.le_refl _, by decide⟩
    rw [request_post_result_eq,
      post_result_handle_eq _ example_globals _ _ _ (List.replicate 121 'a') rfl rfl, h121,
      if_pos hc]
    have hs : url_suffix (example_response false) = "/error".toList := rfl
    have h200 : post_outcome_of (status_only 200) = { success := true, res_code := 200 } := rfl
    simp only [example_world, if_true, Except.map, url_probe, post_handle_value, hs, h200]
  · rw [request_post_result_eq,
      post_result_handle_eq _ example_globals _ _ _ (List.replicate 122 'a') rfl rfl, h122]
    rfl

/-- C3: whenever `request_post_result` performs its transfer and obtains an HTTP status `s`
(a value of C `int`) without a transport error, the outcome has `res_code = s`, and
`success = true` exactly when `200 ≤ s ≤ 299`. -/
theorem request_post_result_status (w : World) (g : Globals) (request : invocation_request)
    (response : invocation_response) (curl : Curl) (s : Int)
    (hinit : w.curl_easy_init = true)
    (hcurl : post_result_handle w g request response = .ok curl)
    (hcode : (w.curl_easy_perform curl).code = CURLE_OK)
    (hs : (w.curl_easy_perform curl).response_code = s)
    (hlo : -2147483648 ≤ s) (hhi : s ≤ 2147483647) :
    ∃ out, request_post_result w g request response = .ok out
      ∧ out.res_code = s ∧ (out.success = true ↔ 200 ≤ s ∧ s ≤ 299) := by
  refine ⟨{ success := decide (s ≥ 200 ∧ s ≤ 299), res_code := s }, ?_, rfl, ?_⟩
  · rw [request_post_result_eq, if_pos hinit, hcurl]
    simp only [Except.map, post_outcome_of, hcode, if_true, hs, to_int_eq s hlo hhi]
  · simp

/-- Witness of C3: the statuses 429 and 500 give `success = false` with that status. -/
theorem request_post_result_status_witness :
    (∃ out, request_post_result (example_world true (fun _ => status_only 429))
        example_globals (request_with_id "abc-123".toList) (example_response true) = .ok out
      ∧ out.res_code = 429 ∧ (out.success = true ↔ (200 : Int) ≤ 429 ∧ (429 : Int) ≤ 299))
    ∧ (∃ out, request_post_result (example_world true (fun _ => status_only 500))
        example_globals (request_with_id "abc-123".toList) (example_response false) = .ok out
      ∧ out.res_code = 500 ∧ (out.success = true ↔ (200 : Int) ≤ 500 ∧ (500 : Int) ≤ 299)) :=
  ⟨request_post_result_status (example_world true (fun _ => status_only 429)) example_globals
      (request_with_id "abc-123".toList) (example_response true) _ 429 rfl rfl rfl rfl
      (by decide) (by decide),
   request_post_result_status (example_world true (fun _ => status_only 500)) example_globals
      (request_with_id "abc-123".toList) (example_response false) _ 500 rfl rfl rfl rfl
      (by decide) (by decide)⟩

/-- C4: when no transport handle can be acquired, or the transfer ends with a result other
than `CURLE_OK`, `request_get_next` returns `success = false`, `res_code = -1` and no
request, and `request_post_result` returns `success = false` and `res_code = -1`; both
return that value and nothing else. -/
theorem transport_failure_outcomes (w : World) (g : Globals) (request : invocation_request)
    (response : invocation_response) :
    ((w.curl_easy_init = false ∨ (w.curl_easy_perform (next_handle g)).code ≠ CURLE_OK) →
      request_get_next w g = .ok { success := false, res_code := -1, request := none })
    ∧ ((w.curl_easy_init = false ∨
        ∃ curl, post_result_handle w g request response = .ok curl
          ∧ (w.curl_easy_perform curl).code ≠ CURLE_OK) →
      request_post_result w g request response = .ok { success := false, res_code := -1 }) := by
  constructor
  · intro h
    rw [request_get_next_eq]
    rcases h with h | h
    · simp [h, next_not_made]
    · simp [h, next_not_made]
  · intro h
    rw [request_post_result_eq]
    rcases h with h | ⟨curl, hcurl, hcode⟩
    · simp [h, post_not_made]
    · by_cases hi : w.curl_easy_init = true
      · rw [if_pos hi, hcurl]
        simp [Except.map, post_outcome_of, hcode, post_not_made]
      · have hi2 : w.curl_easy_init = false := by simpa using hi
        simp [hi2, post_not_made]

/-- Witness of C4: a transfer that cannot connect, for both operations. -/
theorem transport_failure_outcomes_witness :
    request_get_next (example_world true (fun _ => connect_failed)) example_globals
      = .ok { success := false, res_code := -1, request := none }
    ∧ request_post_result (example_world true (fun _ => connect_failed)) example_globals
        (request_with_id "abc-123".toList) (example_response true)
      = .ok { success := false, res_code := -1 } :=
  ⟨(transport_failure_outcomes (example_world true (fun _ => connect_failed)) example_globals
      (request_with_id "abc-123".toList) (example_response true)).1 (Or.inr (by decide)),
   (transport_failure_outcomes (example_world true (fun _ => connect_failed)) example_globals
      (request_with_id "abc-123".toList) (example_response true)).2
      (Or.inr ⟨_, rfl, by decide⟩)⟩

/-- C5 fails: for the base authority of a 253-byte host name and the port `9001`, the write
of line 39 passes the end of `base_url` and no endpoint is built. -/
theorem service_integration_init_endpoints_lost :
    service_integration_init (some (List.replicate 253 'a' ++ ":9001".toList)) Globals.initial
      = .error .out_of_bounds
    ∧ ¬ ∃ g1,
        service_integration_init (some (List.replicate 253 'a' ++ ":9001".toList))
          Globals.initial = .ok g1
        ∧ g1.next_endpoint = some
          ("http://".toList ++ (List.replicate 253 'a' ++ ":9001".toList)
            ++ "/2018-06-01/runtime/invocation/next".toList) := by
  have hlen : ((some (List.replicate 253 'a' ++ ":9001".toList)).getD []).length = 258 := by
    show (List.replicate 253 'a' ++ ":9001".toList).length = 258
    rw [List.length_append, List.length_replicate]
    rfl
  have h : service_integration_init (some (List.replicate 253 'a' ++ ":9001".toList))
      Globals.initial = .error .out_of_bounds := by
    rw [service_integration_init_eq, hlen]
    rfl
  refine ⟨h, ?_⟩
  rintro ⟨g1, h1, -⟩
  rw [h] at h1
  cases h1

/-- C6 as stated fails for `request_get_next`: a response with status 500, outside 200..299,
is returned with `success = true`, not `success = false`. -/
theorem request_get_next_success_on_500 :
    request_get_next (example_world true (fun _ => status_only 500)) example_globals = .ok
      { success := true, res_code := 500,
        request := some
          { payload := some [], request_id := none, xray_trace_id := none,
            client_context := none, cognito_identity := none, function_arn := none } }
    ∧ ¬ ∃ out,
        request_get_next (example_world true (fun _ => status_only 500)) example_globals
          = .ok out
        ∧ out.success = false ∧ out.res_code = 500 := by
  refine ⟨rfl, ?_⟩
  rintro ⟨out, h, hs, -⟩
  have h2 : request_get_next (example_world true (fun _ => status_only 500)) example_globals
      = .ok
        { success := true, res_code := 500,
          request := some
            { payload := some [], request_id := none, xray_trace_id := none,
              client_context := none, cognito_identity := none, function_arn := none } } :=
    rfl
  rw [h2] at h
  injection h with h
  subst h
  cases hs

/-- C6 as amended: whenever a response is obtained whose HTTP status `s` (a value of C `int`)
lies outside 200..299, `request_post_result` returns `success = false` and `res_code = s`,
and `request_get_next` returns `res_code = s` too, the real status and not the sentinel -1,
with `success = true`. -/
theorem http_failure_outcomes (w : World) (g : Globals) (request : invocation_request)
    (response : invocation_response) (s : Int)
    (hinit : w.curl_easy_init = true) (hout : s < 200 ∨ 299 < s)
    (hlo : -2147483648 ≤ s) (hhi : s ≤ 2147483647) :
    (∀ curl, post_result_handle w g request response = .ok curl →
      (w.curl_easy_perform curl).code = CURLE_OK →
      (w.curl_easy_perform curl).response_code = s →
      request_post_result w g request response = .ok { success := false, res_code := s })
    ∧ ((w.curl_easy_perform (next_handle g)).code = CURLE_OK →
      (w.curl_easy_perform (next_handle g)).response_code = s →
      ∃ out, request_get_next w g = .ok out ∧ out.success = true ∧ out.res_code = s) := by
  constructor
  · intro curl hcurl hcode hs
    have hd : decide (s ≥ 200 ∧ s ≤ 299) = false := by
      rw [decide_eq_false_iff_not]
      omega
    rw [request_post_result_eq, if_pos hinit, hcurl]
    simp only [Except.map, post_outcome_of, hcode, if_true, hs, to_int_eq s hlo hhi, hd]
  · intro hcode hs
    refine ⟨next_fulfilled w (w.curl_easy_perform (next_handle g)), ?_, rfl, ?_⟩
    · rw [request_get_next_eq, if_pos ⟨hinit, hcode⟩]
    · simp only [next_fulfilled, hs, to_int_eq s hlo hhi]

/-- Witness of C6 as amended: the status 500, for both operations. -/
theorem http_failure_outcomes_witness :
    request_post_result (example_world true (fun _ => status_only 500)) example_globals
        (request_with_id "abc-123".toList) (example_response true)
      = .ok { success := false, res_code := 500 }
    ∧ ∃ out, request_get_next (example_world true (fun _ => status_only 500)) example_globals
        = .ok out ∧ out.success = true ∧ out.res_code = 500 :=
  ⟨(http_failure_outcomes (example_world true (fun _ => status_only 500)) example_globals
      (request_with_id "abc-123".toList) (example_response true) 500 rfl (Or.inr (by decide))
      (by decide) (by decide)).1 _ rfl rfl rfl,
   (http_failure_outcomes (example_world true (fun _ => status_only 500)) example_globals
      (request_with_id "abc-123".toList) (example_response true) 500 rfl (Or.inr (by decide))
      (by decide) (by decide)).2 rfl rfl⟩

/-- C7 fails: the handle on which `request_get_next` performs the transfer targets the next
endpoint and has no custom request header list, so a server that answers 200 only to a
request carrying exactly the user agent header answers 400. -/
theorem request_get_next_header_list_unset :
    (next_handle example_globals).url = example_globals.next_endpoint
    ∧ (next_handle example_globals).httpheader = none
    ∧ request_get_next
        (example_world true (header_probe "User-Agent: AWS_Lambda_C/0.1".toList))
        example_globals = .ok
      { success := true, res_code := 400,
        request := some
          { payload := some [], request_id := none, xray_trace_id := none,
            client_context := none, cognito_identity := none, function_arn := none } } :=
  ⟨rfl, rfl, rfl⟩

/-- C8 fails: with a request id of 119 bytes and a successful response, the third write
into the array of `strlen(result_endpoint) + 128` bytes passes its end. -/
theorem request_url_out_of_bounds :
    build_request_url example_globals (request_with_id (List.replicate 119 'a'))
      (example_response true) = .error .out_of_bounds
    ∧ request_post_result (example_world true (fun _ => status_only 200)) example_globals
      (request_with_id (List.replicate 119 'a')) (example_response true)
      = .error .out_of_bounds := by
  have hlen : (List.replicate 119 'a').length + (url_suffix (example_response true)).length + 1
      = 129 := by
    rw [List.length_replicate]
    rfl
  constructor
  · rw [build_request_url_eq example_globals _ _ _ (List.replicate 119 'a') rfl rfl, hlen]
    rfl
  · rw [request_post_result_eq,
      post_result_handle_eq _ example_globals _ _ _ (List.replicate 119 'a') rfl rfl, hlen]
    rfl

/-- C9 fails: with an environment value of 249 bytes, `strcat` writes past the end of
`base_url`; no length check precedes it. -/
theorem base_url_out_of_bounds :
    service_integration_init (some (List.replicate 249 'a')) Globals.initial
      = .error .out_of_bounds := by
  rw [service_integration_init_eq]
  have hlen : ((some (List.replicate 249 'a')).getD []).length = 249 := by
    show (List.replicate 249 'a').length = 249
    rw [List.length_replicate]
  rw [hlen]
  rfl

/-- C10: for every response with content type `c` and payload `p` of `n` bytes, the handle on
which `request_post_result` performs its one transfer is a POST (`CURLOPT_POST`, no
`CURLOPT_HTTPGET`) to the submission URL whose request header list is, in order,
`"Content-Type: " ++ c`, the user agent header and `"Content-Length: " ++ decimal n`; its
declared body size is `n`, and its body is read by `read_data_callback` from the cursor
holding `p` with `n` bytes left.  The outcome of `request_post_result` is the outcome of the
transfer on that handle.  The handle exists whenever the URL fits its array and
`n < 10 ^ 15`. -/
theorem request_post_result_headers (w : World) (g : Globals) (request : invocation_request)
    (response : invocation_response) :
    (∀ P r, g.result_endpoint = some P → request.request_id = some r →
      r.length + (if response.success then 9 else 6) + 1 ≤ 128 →
      response.payload.length < 10 ^ 15 →
      ∃ curl, post_result_handle w g request response = .ok curl)
    ∧ ∀ curl, post_result_handle w g request response = .ok curl →
      (curl.post = some 1 ∧ curl.httpget = none
        ∧ curl.httpheader = some
          ["Content-Type: ".toList ++ response.content_type,
           w.get_user_agent_header,
           "Content-Length: ".toList ++ (Nat.repr response.payload.length).toList]
        ∧ curl.postfieldsize = some (response.payload.length : Int)
        ∧ curl.readfunction = some .read_data_callback
        ∧ curl.readdata = some
          { readptr := response.payload, sizeleft := response.payload.length })
      ∧ (w.curl_easy_init = true →
        request_post_result w g request response
          = .ok (post_outcome_of (w.curl_easy_perform curl))) := by
  constructor
  · intro P r hP hr h1 h2
    have hlen : (url_suffix response).length = if response.success then 9 else 6 := by
      unfold url_suffix
      cases response.success <;> rfl
    rw [post_result_handle_eq w g request response P r hP hr, hlen]
    exact ⟨_, by rw [if_pos ⟨h1, h2⟩]⟩
  · intro curl h
    constructor
    · obtain ⟨⟨url, hurl⟩, hn⟩ := post_result_handle_ok w g request response curl h
      subst hurl
      have h63 : response.payload.length < 2 ^ 63 := by
        have : (10 : Nat) ^ 15 < 2 ^ 63 := by decide
        omega
      refine ⟨rfl, rfl, rfl, ?_, rfl, rfl⟩
      simp only [post_handle_value, to_long_eq _ h63]
    · intro hinit
      rw [request_post_result_eq, if_pos hinit, h]
      rfl

/-- Witness of C10: the payload `ok` with content type `application/json`, answered with
status 200. -/
theorem request_post_result_headers_witness :
    ∃ curl, post_result_handle (example_world true (fun _ => status_only 200)) example_globals
        (request_with_id "abc-123".toList) (example_response true) = .ok curl
      ∧ (curl.post = some 1 ∧ curl.httpget = none
        ∧ curl.httpheader = some
          ["Content-Type: application/json".toList,
           "User-Agent: AWS_Lambda_C/0.1".toList,
           "Content-Length: 2".toList]
        ∧ curl.postfieldsize = some 2
        ∧ curl.readfunction = some .read_data_callback
        ∧ curl.readdata = some { readptr := "ok".toList, sizeleft := 2 })
      ∧ request_post_result (example_world true (fun _ => status_only 200)) example_globals
          (request_with_id "abc-123".toList) (example_response true)
        = .ok { success := true, res_code := 200 } :=
  ⟨_, rfl,
    ((request_post_result_headers (example_world true (fun _ => status_only 200))
      example_globals (request_with_id "abc-123".toList) (example_response true)).2 _ rfl).1,
    ((request_post_result_headers (example_world true (fun _ => status_only 200))
      example_globals (request_with_id "abc-123".toList) (example_response true)).2 _ rfl).2
      rfl⟩

end LambdaRuntime
